import Mathlib

/-
Verification of the pico-sync synchronization library: a shallow embedding of
src/cores.rs (core ownership tokens and LocalCell) and src/mutex.rs
(hardware-spinlock-backed mutex with RAII guards), with theorems settling the
spec's testable properties.

The hardware abstraction layer (SIO spinlock register and current-core report)
is an external collaborator of the library; its contract is embedded from the
spec's hardware lock contract (claim busy-waits, try_claim returns absence if
held, release on handle destruction, current-core identification).
-/

namespace PicoSync

/-- Core identifiers reported by the SIO hardware block (the HAL CoreId
enumeration: a dual-core part has exactly core 0 and core 1). -/
inductive CoreId where
  | core0
  | core1
deriving DecidableEq

/-- A core ownership token (Core0Token / Core1Token in src/cores.rs). The Rust
tokens are zero-sized; the model records which core id the token claims to be a
proof for (the SingleCore associated constant ID). -/
structure CoreToken where
  id : CoreId
deriving DecidableEq

/-- Result of an operation that may hit a debug assertion: `panicked` models the
debug_assert firing (a panic/abort), `ok a` a normal return of `a`. -/
inductive PanicOr (A : Type) where
  | panicked
  | ok (a : A)
deriving DecidableEq

/-- SingleCore::steal (src/cores.rs, singlecore! macro body): runs
debug_assert_eq!(Sio::core(), Self::ID) and then fabricates the zero-sized
token. `dbg` says whether debug assertions are compiled in; `current` is the
hardware-reported current core (Sio::core()); `id` is the token type's core. -/
def steal (dbg : Bool) (current id : CoreId) : PanicOr CoreToken :=
  if dbg && current != id then PanicOr.panicked else PanicOr.ok ⟨id⟩

/-- try_claim_inner (src/cores.rs lines 127-137, guarded policy): performs
compare_exchange false→true on the per-core AtomicBool `claimed`; on success
calls steal, on failure returns None. The returned Bool is the flag state after
the call. Note the compare-exchange lands before steal runs, so the flag is set
even on the panicking path. -/
def try_claim_inner (dbg : Bool) (current id : CoreId) (claimed : Bool) :
    PanicOr (Option CoreToken) × Bool :=
  if claimed = false then
    match steal dbg current id with
    | PanicOr.panicked => (PanicOr.panicked, true)
    | PanicOr.ok t => (PanicOr.ok (some t), true)
  else (PanicOr.ok none, claimed)

/-- try_new_inner (src/cores.rs lines 138-147, unguarded trust policy): succeeds
exactly when the hardware-reported current core equals the token's core;
otherwise returns None without touching any state. -/
def try_new_inner (dbg : Bool) (current id : CoreId) : PanicOr (Option CoreToken) :=
  if current = id then
    match steal dbg current id with
    | PanicOr.panicked => PanicOr.panicked
    | PanicOr.ok t => PanicOr.ok (some t)
  else PanicOr.ok none

/-- A sequence of try_claim calls for one token type, each from a (possibly
different) current core, starting from flag state `claimed`. try_claim_inner is
the only operation in the library that touches the per-core claimed flag, so an
execution's effect on the flag is exactly such a sequence. Returns the list of
call results and the final flag state. -/
def runClaims (dbg : Bool) (id : CoreId) (cs : List CoreId) (claimed : Bool) :
    List (PanicOr (Option CoreToken)) × Bool :=
  match cs with
  | [] => ([], claimed)
  | c :: rest =>
    let step := try_claim_inner dbg c id claimed
    let next := runClaims dbg id rest step.2
    (step.1 :: next.1, next.2)

theorem steal_ok_of_eq (dbg : Bool) (current id : CoreId) (h : current = id) :
    steal dbg current id = PanicOr.ok ⟨id⟩ := by
  subst h
  simp [steal]

theorem runClaims_claimed (dbg : Bool) (id : CoreId) (cs : List CoreId) :
    runClaims dbg id cs true = (cs.map fun _ => PanicOr.ok none, true) := by
  induction cs with
  | nil => rfl
  | cons c rest ih =>
      simp [runClaims, try_claim_inner, ih]

/-- C3 (amended): under the guarded policy, the very first try_claim in an
execution succeeds provided debug assertions are disabled or the caller runs on
the token's own core (a wrong-core first claim panics under debug assertions);
once the claimed flag is set, every later try_claim returns None and leaves the
flag set, and no operation resets the flag, so a claim can never succeed again. -/
theorem guarded_claim_one_shot (dbg : Bool) (id : CoreId) :
    (∀ current : CoreId, (dbg = false ∨ current = id) →
      try_claim_inner dbg current id false = (PanicOr.ok (some ⟨id⟩), true))
    ∧ (∀ cs : List CoreId,
      runClaims dbg id cs true = (cs.map fun _ => PanicOr.ok none, true)) := by
  constructor
  · intro current h
    rcases h with h | h
    · subst h
      simp [try_claim_inner, steal]
    · simp [try_claim_inner, steal_ok_of_eq dbg current id h]
  · exact runClaims_claimed dbg id

/-- Witness for C3's amended theorem at concrete inputs: on core 0, with debug
assertions on, the first claim of Core0Token succeeds and two later claims from
either core both return None with the flag still set. -/
theorem guarded_claim_one_shot_witness :
    try_claim_inner true CoreId.core0 CoreId.core0 false
      = (PanicOr.ok (some ⟨CoreId.core0⟩), true)
    ∧ runClaims true CoreId.core0 [CoreId.core0, CoreId.core1] true
      = ([PanicOr.ok none, PanicOr.ok none], true) :=
  ⟨(guarded_claim_one_shot true CoreId.core0).1 CoreId.core0 (Or.inr rfl),
    (guarded_claim_one_shot true CoreId.core0).2 [CoreId.core0, CoreId.core1]⟩

/-- C3 counterexample: with debug assertions enabled, the very first try_claim
of Core0Token made from core 1 panics (the compare-exchange wins, then the
debug assertion in steal fires), so it does not succeed as the claim states. -/
theorem guarded_claim_first_can_panic :
    (try_claim_inner true CoreId.core1 CoreId.core0 false).1 = PanicOr.panicked
    ∧ (try_claim_inner true CoreId.core1 CoreId.core0 false).1
      ≠ PanicOr.ok (some ⟨CoreId.core0⟩) := by
  decide

/-- C4: under the unguarded (trust) policy, try_new returns Some token exactly
when the hardware-reported current core equals the token type's core id, and
otherwise returns None (and it never panics on the mismatch path, since steal
is only reached on the matching core). -/
theorem unguarded_try_new_iff (dbg : Bool) (current id : CoreId) :
    (try_new_inner dbg current id = PanicOr.ok (some ⟨id⟩) ↔ current = id)
    ∧ (current ≠ id → try_new_inner dbg current id = PanicOr.ok none) := by
  constructor
  · constructor
    · intro h
      by_contra hne
      simp [try_new_inner, hne] at h
    · intro h
      subst h
      simp [try_new_inner, steal]
  · intro h
    simp [try_new_inner, h]

/-- Witness for C4 at concrete inputs: on core 0, try_new for Core0Token
succeeds and try_new for Core1Token returns None. -/
theorem unguarded_try_new_iff_witness :
    try_new_inner true CoreId.core0 CoreId.core0
      = PanicOr.ok (some ⟨CoreId.core0⟩)
    ∧ try_new_inner true CoreId.core0 CoreId.core1 = PanicOr.ok none :=
  ⟨(unguarded_try_new_iff true CoreId.core0 CoreId.core0).1.mpr rfl,
    (unguarded_try_new_iff true CoreId.core0 CoreId.core1).2 (by decide)⟩

/-- C5 (amended): the claim operations never panic when debug assertions are
disabled; try_claim additionally never panics when invoked from the token's own
core, whatever the claim state; and try_new never panics in any configuration.
Under debug assertions, try_claim does panic when it wins the unclaimed flag
from a non-matching core (see the counterexample). -/
theorem claim_ops_no_panic :
    (∀ (current id : CoreId) (claimed : Bool),
      (try_claim_inner false current id claimed).1 ≠ PanicOr.panicked)
    ∧ (∀ (dbg : Bool) (current id : CoreId) (claimed : Bool), current = id →
      (try_claim_inner dbg current id claimed).1 ≠ PanicOr.panicked)
    ∧ (∀ (dbg : Bool) (current id : CoreId),
      try_new_inner dbg current id ≠ PanicOr.panicked) := by
  refine ⟨?_, ?_, ?_⟩
  · intro current id claimed
    cases claimed <;> simp [try_claim_inner, steal]
  · intro dbg current id claimed h
    cases claimed <;> simp [try_claim_inner, steal_ok_of_eq dbg current id h]
  · intro dbg current id
    by_cases h : current = id
    · subst h
      simp [try_new_inner, steal]
    · simp [try_new_inner, h]

/-- Witness for C5's amended theorem at concrete inputs: in a release build a
wrong-core unclaimed try_claim does not panic, on the matching core a debug
try_claim does not panic, and a wrong-core debug try_new does not panic. -/
theorem claim_ops_no_panic_witness :
    (try_claim_inner false CoreId.core1 CoreId.core0 false).1 ≠ PanicOr.panicked
    ∧ (try_claim_inner true CoreId.core0 CoreId.core0 false).1 ≠ PanicOr.panicked
    ∧ try_new_inner true CoreId.core1 CoreId.core0 ≠ PanicOr.panicked :=
  ⟨claim_ops_no_panic.1 CoreId.core1 CoreId.core0 false,
    claim_ops_no_panic.2.1 true CoreId.core0 CoreId.core0 false rfl,
    claim_ops_no_panic.2.2 true CoreId.core1 CoreId.core0⟩

/-- C5 counterexample: with debug assertions enabled, try_claim of Core0Token
invoked from core 1 on the unclaimed flag panics instead of returning a value,
refuting that the claim operations never panic regardless of invoking core. -/
theorem try_claim_can_panic :
    (try_claim_inner true CoreId.core1 CoreId.core0 false).1 = PanicOr.panicked := by
  decide

/-- A lock-free one-time-initialized cell (LocalCell in src/cores.rs, lines
15-84). Its inner OnceCell from the core library is modelled from the spec:
it holds an optional value written at most once, with none the uninitialized
state, and get_or_init runs the initializer only when the cell is empty. -/
structure LocalCell (T : Type) where
  data : Option T

/-- LocalCell::new: creates an uninitialized cell. -/
def LocalCell.new (T : Type) : LocalCell T := ⟨none⟩

/-- LocalCell::get_or_init (src/cores.rs lines 39-61): takes a core token as a
capability proof (unused at runtime, like the Rust _ctx parameter) and
delegates to OnceCell::get_or_init. The initializer threads an explicit
closure state σ so its invocation and side effects are observable. Returns the
cell after the call, the closure state after the call, and the value. -/
def LocalCell.get_or_init {T σ : Type} (cell : LocalCell T) (_ctx : CoreToken)
    (init : σ → σ × T) (s : σ) : LocalCell T × σ × T :=
  match cell.data with
  | some v => (cell, s, v)
  | none =>
    let r := init s
    (⟨some r.2⟩, r.1, r.2)

/-- C6: get_or_init on a fresh LocalCell with initializer f, then again with
any second initializer g (over any closure-state type), returns the value
produced by f both times; the first call runs f once and stores its value, and
the second call changes nothing — g is never invoked, its closure state is
returned untouched, and the stored value is written at most once. -/
theorem get_or_init_once {T σ σ2 : Type} (tok tok2 : CoreToken)
    (f : σ → σ × T) (g : σ2 → σ2 × T) (s : σ) (s2 : σ2) :
    ((LocalCell.new T).get_or_init tok f s
      = (⟨some (f s).2⟩, (f s).1, (f s).2))
    ∧ (((LocalCell.new T).get_or_init tok f s).1.get_or_init tok2 g s2
      = (((LocalCell.new T).get_or_init tok f s).1, s2, (f s).2)) := by
  constructor
  · simp [LocalCell.new, LocalCell.get_or_init]
  · simp [LocalCell.new, LocalCell.get_or_init]

/-
The spinlock mutex of src/mutex.rs. The state a SpinlockMutex<T, N> interacts
with is the SIO spinlock register file together with the mutex's own payload
(its data: UnsafeCell<T> field); the mutex carries no lock state of its own —
per the spec the hardware register is the sole truth.
-/

/-- The world of one mutex: the hardware spinlock register file (locks n = true
means hardware lock n is currently held) and the mutex payload. -/
structure World (T : Type) where
  locks : Nat → Bool
  payload : T

/-- Modelled from the spec: the HAL Spinlock::try_claim — non-blocking; when
lock n is held it returns absence and leaves the register unchanged, otherwise
it claims the lock. The Unit value stands for the opaque Spinlock<N> handle. -/
def hwTryClaim (n : Nat) (locks : Nat → Bool) : Option Unit × (Nat → Bool) :=
  if locks n then (none, locks)
  else (some (), fun m => if m = n then true else locks m)

/-- Modelled from the spec: destroying a HAL Spinlock handle for lock n
releases the hardware lock. -/
def hwRelease (n : Nat) (locks : Nat → Bool) : Nat → Bool :=
  fun m => if m = n then false else locks m

/-- RefMut<'l, T, N> (src/mutex.rs lines 143-163): owns the Spinlock<N> handle
and a mutable borrow of the payload. In the model the borrow is the World's
payload field, and the structure records the lock id N of the owned handle. -/
structure RefMut (T : Type) where
  lockId : Nat

/-- Reading through the guard (Deref / AsRef): the payload it borrows. -/
def RefMut.read {T : Type} (_ : RefMut T) (w : World T) : T := w.payload

/-- Writing through the guard's mutable borrow (DerefMut / AsMut) stores into
the mutex payload in place. -/
def RefMut.write {T : Type} (_ : RefMut T) (w : World T) (v : T) : World T :=
  { w with payload := v }

/-- Dropping a guard drops its owned Spinlock handle, which releases the
hardware lock exactly once; the payload is untouched. -/
def RefMut.drop {T : Type} (g : RefMut T) (w : World T) : World T :=
  { w with locks := hwRelease g.lockId w.locks }

/-- SpinlockMutex::lock_with (src/mutex.rs lines 35-41): wraps an externally
claimed handle into a guard; touches neither the register nor the payload. -/
def lock_with {T : Type} (n : Nat) (_handle : Unit) : RefMut T := ⟨n⟩

/-- SpinlockMutex::try_lock (src/mutex.rs lines 44-46): Spinlock::try_claim()
mapped through lock_with. Returns the optional guard and the world after the
attempt. -/
def try_lock {T : Type} (n : Nat) (w : World T) : Option (RefMut T) × World T :=
  match hwTryClaim n w.locks with
  | (none, l) => (none, { w with locks := l })
  | (some h, l) => (some (lock_with n h), { w with locks := l })

/-- SpinlockMutex::lock_blocking (src/mutex.rs lines 57-59): Spinlock::claim()
busy-waits until lock n is free, then wraps the handle with lock_with. The
model takes one step: when the lock is free it is claimed; when it is held the
busy-wait keeps spinning and yields no result — in particular the documented
deadlock when the caller itself already holds n. -/
def lock_blocking {T : Type} (n : Nat) (w : World T) :
    Option (RefMut T × World T) :=
  if w.locks n then none
  else some (lock_with n (),
    { w with locks := fun m => if m = n then true else w.locks m })

/-- SpinlockMutex::new(data) (src/mutex.rs lines 27-32): wraps the payload and
claims nothing, so the world after new keeps whatever lock state the hardware
already had. -/
def mutex_new {T : Type} (l0 : Nat → Bool) (v : T) : World T := ⟨l0, v⟩

/-- SpinlockMutex::into_inner (src/mutex.rs lines 62-66): consumes the mutex,
handing out the payload via UnsafeCell::into_inner; the hardware register is
not touched, so the lock state comes back unchanged alongside the data. -/
def into_inner {T : Type} (w : World T) : T × (Nat → Bool) :=
  (w.payload, w.locks)

/-- SpinlockMutex::call_with_lock_blocking (src/mutex.rs lines 70-76):
lock_blocking, then call f on the borrowed payload; the guard is dropped when
the call returns, releasing the lock. f threads a closure state σ so its
invocation count and side effects are observable; none is the spinning case. -/
def call_with_lock_blocking {T σ R : Type} (n : Nat) (f : σ → T → σ × T × R)
    (s : σ) (w : World T) : Option (R × σ × World T) :=
  match lock_blocking n w with
  | none => none
  | some gw =>
    let g := gw.1
    let r := f s (g.read gw.2)
    some (r.2.2, r.1, g.drop (g.write gw.2 r.2.1))

/-- SpinlockMutex::try_call_with_lock (src/mutex.rs lines 80-87): try_lock,
then call f on the borrowed payload only if the lock was acquired; the guard is
dropped when the call returns. -/
def try_call_with_lock {T σ R : Type} (n : Nat) (f : σ → T → σ × T × R)
    (s : σ) (w : World T) : Option R × σ × World T :=
  match try_lock n w with
  | (none, w1) => (none, s, w1)
  | (some g, w1) =>
    let r := f s (g.read w1)
    (some r.2.2, r.1, g.drop (g.write w1 r.2.1))

/-- Instruments a pure payload transformer as a callback that counts its own
invocations in its closure state. -/
def countCalls {T R : Type} (gf : T → T × R) : Nat → T → Nat × T × R :=
  fun k t => (k + 1, (gf t).1, (gf t).2)

/-- RefMut::assume_init (src/mutex.rs lines 197-209): keeps the same spinlock
handle and reinterprets the borrowed MaybeUninit<T> in place as T — no copy and
no check. The MaybeUninit<T> payload is modelled as Option T, with none the
uninitialized bit pattern (the layouts coincide, so promotion is pure
reinterpretation). -/
def RefMut.assume_init {T : Type} (g : RefMut (Option T)) : RefMut T :=
  ⟨g.lockId⟩

/-- Reading through a promoted guard: the initialized content of the very same
payload location (assume_init_mut performs no copy). -/
def RefMut.readInit {T : Type} (_ : RefMut T) (w : World (Option T)) :
    Option T := w.payload

/-- SpinlockMutex::try_assume_init_lock (src/mutex.rs lines 123-125): try_lock
mapped through RefMut::assume_init. -/
def try_assume_init_lock {T : Type} (n : Nat) (w : World (Option T)) :
    Option (RefMut T) × World (Option T) :=
  match try_lock n w with
  | (none, w1) => (none, w1)
  | (some g, w1) => (some g.assume_init, w1)

/-- SpinlockMutex::uninit() for lock id 0 in a world whose spinlocks are all
free: the fresh state of the uninitialized-mutex scenario. -/
def uninitWorld : World (Option Nat) := ⟨fun _ => false, none⟩

/-- The uninitialized-mutex scenario run end to end: try_lock on the fresh
uninitialized mutex, write 42 through the uninitialized representation, drop
the guard, then try_assume_init_lock. Returns whether the first try_lock
yielded a guard, and the value the promoted guard dereferences to. -/
def uninitScenario : Bool × Option Nat :=
  match try_lock 0 uninitWorld with
  | (none, _) => (false, none)
  | (some g, w1) =>
    let w2 := g.write w1 (some 42)
    let w3 := g.drop w2
    match try_assume_init_lock 0 w3 with
    | (none, _) => (true, none)
    | (some g2, w4) => (true, g2.readInit w4)

theorem try_lock_of_held {T : Type} (n : Nat) (w : World T)
    (h : w.locks n = true) : try_lock n w = (none, w) := by
  simp [try_lock, hwTryClaim, h]

theorem try_lock_of_free {T : Type} (n : Nat) (w : World T)
    (h : w.locks n = false) :
    try_lock n w
      = (some ⟨n⟩, ⟨fun m => if m = n then true else w.locks m, w.payload⟩) := by
  simp [try_lock, hwTryClaim, h, lock_with]

theorem lock_blocking_of_held {T : Type} (n : Nat) (w : World T)
    (h : w.locks n = true) : lock_blocking n w = none := by
  simp [lock_blocking, h]

theorem lock_blocking_of_free {T : Type} (n : Nat) (w : World T)
    (h : w.locks n = false) :
    lock_blocking n w
      = some (⟨n⟩, ⟨fun m => if m = n then true else w.locks m, w.payload⟩) := by
  simp [lock_blocking, h, lock_with]

theorem locks_after_acquire {T : Type} (n : Nat) (w : World T) :
    (⟨fun m => if m = n then true else w.locks m, w.payload⟩ : World T).locks n
      = true := by
  simp

theorem drop_after_acquire {T : Type} (n : Nat) (w : World T) (v : T) :
    RefMut.drop ⟨n⟩
        (⟨fun m => if m = n then true else w.locks m, v⟩ : World T)
      = ⟨fun m => if m = n then false else w.locks m, v⟩ := by
  unfold RefMut.drop
  congr 1
  funext m
  by_cases hm : m = n <;> simp [hwRelease, hm]

theorem released_locks_eq {T : Type} (n : Nat) (w : World T)
    (h : w.locks n = false) (m : Nat) :
    (if m = n then false else w.locks m) = w.locks m := by
  by_cases hm : m = n <;> simp [hm, h]

theorem try_lock_preserves_payload {T : Type} (n : Nat) (x : World T)
    (g2 : RefMut T) (w4 : World T) (h : try_lock n x = (some g2, w4)) :
    w4.payload = x.payload := by
  by_cases hx : x.locks n = true
  · rw [try_lock_of_held n x hx] at h
    simp at h
  · rw [Bool.not_eq_true] at hx
    rw [try_lock_of_free n x hx, Prod.mk.injEq] at h
    rw [← h.2]

/-- C1: try_lock on lock id N returns None and leaves both the hardware lock
state and the payload unchanged whenever lock N is currently held — in
particular immediately after a successful lock_blocking or try_lock on the same
id whose guard is still live — and returns Some guard whenever lock N is free. -/
theorem try_lock_spec {T : Type} (n : Nat) (w : World T) :
    (w.locks n = true → try_lock n w = (none, w))
    ∧ (w.locks n = false → ∃ g : RefMut T, (try_lock n w).1 = some g)
    ∧ (∀ gw : RefMut T × World T, lock_blocking n w = some gw →
        try_lock n gw.2 = (none, gw.2))
    ∧ (∀ (g : RefMut T) (w1 : World T), try_lock n w = (some g, w1) →
        try_lock n w1 = (none, w1)) := by
  refine ⟨try_lock_of_held n w, ?_, ?_, ?_⟩
  · intro h
    exact ⟨⟨n⟩, by rw [try_lock_of_free n w h]⟩
  · intro gw hgw
    by_cases h : w.locks n = true
    · rw [lock_blocking_of_held n w h] at hgw
      simp at hgw
    · rw [Bool.not_eq_true] at h
      rw [lock_blocking_of_free n w h] at hgw
      apply try_lock_of_held
      rw [← Option.some_inj.mp hgw]
      simp
  · intro g w1 h1
    by_cases h : w.locks n = true
    · rw [try_lock_of_held n w h] at h1
      simp at h1
    · rw [Bool.not_eq_true] at h
      rw [try_lock_of_free n w h, Prod.mk.injEq] at h1
      apply try_lock_of_held
      rw [← h1.2]
      simp

/-- Witness for C1 at concrete inputs: with lock 0 held, try_lock 0 returns
None leaving the world unchanged; with lock 0 free, try_lock 0 yields a guard. -/
theorem try_lock_spec_witness :
    try_lock 0 (⟨fun _ => true, 5⟩ : World Nat) = (none, ⟨fun _ => true, 5⟩)
    ∧ ∃ g : RefMut Nat, (try_lock 0 (⟨fun _ => false, 5⟩ : World Nat)).1 = some g :=
  ⟨(try_lock_spec 0 ⟨fun _ => true, 5⟩).1 rfl,
    (try_lock_spec 0 ⟨fun _ => false, 5⟩).2.1 rfl⟩

theorem drop_restores {T : Type} (n : Nat) (w : World T)
    (h : w.locks n = false) (v : T) :
    (∀ m, (RefMut.drop ⟨n⟩
        (⟨fun m => if m = n then true else w.locks m, v⟩ : World T)).locks m
      = w.locks m)
    ∧ (RefMut.drop ⟨n⟩
        (⟨fun m => if m = n then true else w.locks m, v⟩ : World T)).locks n
      = false
    ∧ ∃ g2 : RefMut T, (try_lock n (RefMut.drop ⟨n⟩
        (⟨fun m => if m = n then true else w.locks m, v⟩ : World T))).1
      = some g2 := by
  rw [drop_after_acquire]
  refine ⟨fun m => released_locks_eq n w h m, by simp, ⟨⟨n⟩, ?_⟩⟩
  rw [try_lock_of_free]
  simp

/-- C2: dropping the guard obtained from a successful try_lock or from
lock_blocking releases hardware lock N exactly once, restoring the register
pointwise to the pre-acquisition state — in particular lock N is free again —
so a subsequent try_lock on the same id succeeds. -/
theorem guard_drop_releases {T : Type} (n : Nat) (w : World T) :
    (∀ (g : RefMut T) (w1 : World T), try_lock n w = (some g, w1) →
      (∀ m, (g.drop w1).locks m = w.locks m)
      ∧ (g.drop w1).locks n = false
      ∧ ∃ g2 : RefMut T, (try_lock n (g.drop w1)).1 = some g2)
    ∧ (∀ gw : RefMut T × World T, lock_blocking n w = some gw →
      (∀ m, (gw.1.drop gw.2).locks m = w.locks m)
      ∧ (gw.1.drop gw.2).locks n = false
      ∧ ∃ g2 : RefMut T, (try_lock n (gw.1.drop gw.2)).1 = some g2) := by
  constructor
  · intro g w1 h1
    by_cases h : w.locks n = true
    · rw [try_lock_of_held n w h] at h1
      simp at h1
    · rw [Bool.not_eq_true] at h
      rw [try_lock_of_free n w h, Prod.mk.injEq] at h1
      rw [← Option.some_inj.mp h1.1, ← h1.2]
      exact drop_restores n w h w.payload
  · intro gw hgw
    by_cases h : w.locks n = true
    · rw [lock_blocking_of_held n w h] at hgw
      simp at hgw
    · rw [Bool.not_eq_true] at h
      rw [lock_blocking_of_free n w h] at hgw
      rw [← Option.some_inj.mp hgw]
      exact drop_restores n w h w.payload

/-- Witness for C2 at concrete inputs: acquiring lock 0 via try_lock on a world
with all locks free and payload 5, then dropping the guard, leaves lock 0 free
and a second try_lock 0 yields a guard again. -/
theorem guard_drop_releases_witness :
    (RefMut.drop (⟨0⟩ : RefMut Nat)
        (⟨fun m => if m = 0 then true else false, 5⟩ : World Nat)).locks 0
      = false
    ∧ ∃ g2 : RefMut Nat, (try_lock 0 (RefMut.drop (⟨0⟩ : RefMut Nat)
        (⟨fun m => if m = 0 then true else false, 5⟩ : World Nat))).1
      = some g2 :=
  ⟨((guard_drop_releases 0 (⟨fun _ => false, 5⟩ : World Nat)).1 ⟨0⟩
      ⟨fun m => if m = 0 then true else false, 5⟩ (by rfl)).2.1,
    ((guard_drop_releases 0 (⟨fun _ => false, 5⟩ : World Nat)).1 ⟨0⟩
      ⟨fun m => if m = 0 then true else false, 5⟩ (by rfl)).2.2⟩

/-- C7: with lock N free, call_with_lock_blocking acquires the lock, invokes f
exactly once on the payload (the instrumented call count goes from k to k + 1),
stores f's updated payload, releases the lock on return (the register is
pointwise back to its initial state) and returns f's result; try_call_with_lock
does the same when the lock is free, and when lock N is held it returns None
without invoking f (count still k) and changes nothing. -/
theorem call_with_lock_spec {T R : Type} (n : Nat) (gf : T → T × R) (k : Nat)
    (w : World T) :
    (w.locks n = false →
      ∃ w2 : World T,
        call_with_lock_blocking n (countCalls gf) k w
          = some ((gf w.payload).2, k + 1, w2)
        ∧ w2.payload = (gf w.payload).1
        ∧ ∀ m, w2.locks m = w.locks m)
    ∧ (w.locks n = false →
      ∃ w2 : World T,
        try_call_with_lock n (countCalls gf) k w
          = (some (gf w.payload).2, k + 1, w2)
        ∧ w2.payload = (gf w.payload).1
        ∧ ∀ m, w2.locks m = w.locks m)
    ∧ (w.locks n = true →
      try_call_with_lock n (countCalls gf) k w = (none, k, w)) := by
  refine ⟨?_, ?_, ?_⟩
  · intro h
    refine ⟨RefMut.drop ⟨n⟩
        ⟨fun m => if m = n then true else w.locks m, (gf w.payload).1⟩,
      ?_, rfl, ?_⟩
    · unfold call_with_lock_blocking
      rw [lock_blocking_of_free n w h]
      rfl
    · intro m
      rw [drop_after_acquire n w (gf w.payload).1]
      exact released_locks_eq n w h m
  · intro h
    refine ⟨RefMut.drop ⟨n⟩
        ⟨fun m => if m = n then true else w.locks m, (gf w.payload).1⟩,
      ?_, rfl, ?_⟩
    · unfold try_call_with_lock
      rw [try_lock_of_free n w h]
      rfl
    · intro m
      rw [drop_after_acquire n w (gf w.payload).1]
      exact released_locks_eq n w h m
  · intro h
    unfold try_call_with_lock
    rw [try_lock_of_held n w h]

/-- Witness for C7 at concrete inputs: on a world with all locks free and
payload 5, and the instrumented callback for the transformer taking t to
(t + 1, 2 * t), the blocking call returns the result 10 with call count 1 and
stored payload 6, and with lock 0 held the try variant returns None with call
count still 0 and the world unchanged. -/
theorem call_with_lock_spec_witness :
    (∃ w2 : World Nat,
      call_with_lock_blocking 0 (countCalls fun t => (t + 1, 2 * t)) 0
          (⟨fun _ => false, 5⟩ : World Nat)
        = some (10, 1, w2)
      ∧ w2.payload = 6
      ∧ ∀ m, w2.locks m = (⟨fun _ => false, 5⟩ : World Nat).locks m)
    ∧ try_call_with_lock 0 (countCalls fun t => (t + 1, 2 * t)) 0
          (⟨fun _ => true, 5⟩ : World Nat)
        = (none, 0, ⟨fun _ => true, 5⟩) :=
  ⟨(call_with_lock_spec 0 (fun t => (t + 1, 2 * t)) 0 ⟨fun _ => false, 5⟩).1 rfl,
    (call_with_lock_spec 0 (fun t => (t + 1, 2 * t)) 0 ⟨fun _ => true, 5⟩).2.2 rfl⟩

/-- C8: into_inner on a mutex straight out of new — no lock operation ever
performed on it — returns exactly the value given to new, and hands the
hardware register back exactly as it was: no lock is claimed, released or
otherwise modified, whatever state the hardware spinlocks started in. -/
theorem into_inner_new {T : Type} (l0 : Nat → Bool) (v : T) :
    into_inner (mutex_new l0 v) = (v, l0) := rfl

/-- C9: the uninitialized-mutex scenario on lock id 0: try_lock on the fresh
mutex yields a guard; after writing 42 through the uninitialized representation
and dropping the guard, try_assume_init_lock yields a guard whose dereferenced
value equals 42 — the promotion reads back the very same payload location, with
no copy and no re-check. -/
theorem uninit_promotion_scenario : uninitScenario = (true, some 42) := rfl

/-- C10: a guard's mutable dereference aliases the mutex payload: writing v
through a guard that is live (obtained from try_lock or from lock_blocking) and
then dropping the guard leaves v as the stored payload, so a subsequently
acquired guard for the same mutex dereferences to v and into_inner returns v. -/
theorem guard_write_persists {T : Type} (n : Nat) (v : T) (w : World T) :
    (∀ (g : RefMut T) (w1 : World T), try_lock n w = (some g, w1) →
      (g.drop (g.write w1 v)).payload = v
      ∧ (∀ (g2 : RefMut T) (w4 : World T),
          try_lock n (g.drop (g.write w1 v)) = (some g2, w4) →
            g2.read w4 = v)
      ∧ (into_inner (g.drop (g.write w1 v))).1 = v)
    ∧ (∀ gw : RefMut T × World T, lock_blocking n w = some gw →
      (gw.1.drop (gw.1.write gw.2 v)).payload = v
      ∧ (∀ (g2 : RefMut T) (w4 : World T),
          try_lock n (gw.1.drop (gw.1.write gw.2 v)) = (some g2, w4) →
            g2.read w4 = v)
      ∧ (into_inner (gw.1.drop (gw.1.write gw.2 v))).1 = v) := by
  constructor
  · intro g w1 _
    refine ⟨rfl, ?_, rfl⟩
    intro g2 w4 h4
    exact try_lock_preserves_payload n _ g2 w4 h4
  · intro gw _
    refine ⟨rfl, ?_, rfl⟩
    intro g2 w4 h4
    exact try_lock_preserves_payload n _ g2 w4 h4

/-- Witness for C10 at concrete inputs: after acquiring lock 0 via try_lock on
a world with all locks free and payload 5, writing 7 through the guard and
dropping it leaves 7 stored, and into_inner extracts 7. -/
theorem guard_write_persists_witness :
    (RefMut.drop (⟨0⟩ : RefMut Nat)
      (RefMut.write ⟨0⟩
        (⟨fun m => if m = 0 then true else false, 5⟩ : World Nat) 7)).payload = 7
    ∧ (into_inner (RefMut.drop (⟨0⟩ : RefMut Nat)
      (RefMut.write ⟨0⟩
        (⟨fun m => if m = 0 then true else false, 5⟩ : World Nat) 7))).1 = 7 :=
  ⟨((guard_write_persists 0 7 (⟨fun _ => false, 5⟩ : World Nat)).1 ⟨0⟩
      ⟨fun m => if m = 0 then true else false, 5⟩ (by rfl)).1,
    ((guard_write_persists 0 7 (⟨fun _ => false, 5⟩ : World Nat)).1 ⟨0⟩
      ⟨fun m => if m = 0 then true else false, 5⟩ (by rfl)).2.2⟩

end PicoSync
